import Mathlib

/-!
# Uweather (`src/main.py`) — shallow embedding and verification

This file embeds the decidable core of the Uweather ulauncher plugin
(`src/main.py`) in Lean 4 and settles the frozen specification claims
about it.  Network effects are modelled by passing the observed responses
explicitly; Python floats, which here only ever hold exact decimal values,
are modelled by `ℚ`; Python `dict` lookups are modelled as functions
`String → Option _`; a raised-and-caught Python exception is modelled by
`Option` (with `none` for the exceptional outcome).
-/

namespace Uweather

/-- Python `int(q)` applied to a rational: truncation toward zero. -/
def pyInt (q : ℚ) : ℤ := if q < 0 then ⌈q⌉ else ⌊q⌋

/-- `convert_temperature(temp, unit)` (`src/main.py` lines 63-64):
`int(temp * 9/5 + 32) if unit=="f" else int(temp)`. -/
def convert_temperature (temp : ℚ) (unit : String) : ℤ :=
  if unit = "f" then pyInt (temp * 9 / 5 + 32) else pyInt temp

/-- `CACHE_TTL = 600` (`src/main.py` line 20). -/
def CACHE_TTL : ℚ := 600

/-- Python `s.lower()`, modelled characterwise (all strings the program
lowercases are ASCII). -/
def strLower (s : String) : String := String.mk (s.data.map Char.toLower)

/-- Python truthiness of an optional string (`None` and `""` are falsy). -/
def pyTruthyStr (a : Option String) : Bool :=
  match a with
  | some s => s ≠ ""
  | none => false

/-- Python `a or b` on optional strings: `a` if truthy, otherwise `b` as is. -/
def pyOrS (a b : Option String) : Option String :=
  match a with
  | some s => if s = "" then b else some s
  | none => b

/-- Python `a or b or dflt` for optional strings with a string-literal last
operand, as in `data.get("city") or data.get("cityName") or "Desconhecida"`. -/
def pyStrChoice (a b : Option String) (dflt : String) : String :=
  match pyOrS a b with
  | some s => if s = "" then dflt else s
  | none => dflt

/-- Python `prefs.get(k) or dflt` followed by use as a string, as in
`(self.preferences.get("provider") or "open-meteo")`. -/
def pyStrOr (a : Option String) (dflt : String) : String :=
  match a with
  | some s => if s = "" then dflt else s
  | none => dflt

/-- Python `a or b` on optional numbers (`None`, `0` and `0.0` are falsy),
as in `data.get("lat") or data.get("latitude")`; the second operand is
returned as is when the first is falsy. -/
def pyOrQ (a b : Option ℚ) : Option ℚ :=
  match a with
  | some q => if q = 0 then b else some q
  | none => b

/-- Python list indexing `xs[i]` as a fallible operation (IndexError ↦ `none`). -/
def pyIndex {α : Type} (xs : List α) (i : ℕ) : Option α := xs.get? i

/-- `OPEN_METEO_WEATHER_CODES` (`src/main.py` lines 69-78) as a partial map
from WMO code to Portuguese condition text. -/
def OPEN_METEO_WEATHER_CODES (code : ℕ) : Option String :=
  match code with
  | 0 => some "céu limpo"
  | 1 => some "parcialmente nublado"
  | 2 => some "nublado"
  | 3 => some "nublado"
  | 45 => some "neblina"
  | 48 => some "neblina com gelo"
  | 51 => some "chuva fraca"
  | 53 => some "chuva moderada"
  | 55 => some "chuva forte"
  | 56 => some "chuva congelante fraca"
  | 57 => some "chuva congelante forte"
  | 61 => some "chuva"
  | 63 => some "chuva forte"
  | 65 => some "chuva intensa"
  | 66 => some "chuva congelante leve"
  | 67 => some "chuva congelante intensa"
  | 71 => some "neve fraca"
  | 73 => some "neve moderada"
  | 75 => some "neve intensa"
  | 77 => some "granizo"
  | 80 => some "chuva forte"
  | 81 => some "chuva intensa"
  | 82 => some "chuva intensa"
  | 85 => some "neve leve"
  | 86 => some "neve intensa"
  | 95 => some "trovoada"
  | 96 => some "trovoada com granizo"
  | 99 => some "trovoada com granizo intenso"
  | _ => none

/-- `country_flag(country_code)` (`src/main.py` lines 44-47): empty unless the
code has exactly two characters; otherwise the two regional-indicator
characters at codepoint `ord(upper(c)) + 127397`. -/
def country_flag (cc : String) : String :=
  match cc.data with
  | [a, b] =>
    String.mk [Char.ofNat (a.toUpper.toNat + 127397), Char.ofNat (b.toUpper.toNat + 127397)]
  | _ => ""

/-! ## Geolocation chain (`WeatherService.fetch_location`, lines 95-115) -/

/-- The JSON body a geolocation backend may return; every field the code
reads via `data.get(...)` is optional. -/
structure GeoJson where
  city : Option String
  cityName : Option String
  region : Option String
  countryCode : Option String
  country_code : Option String
  lat : Option ℚ
  latitude : Option ℚ
  lon : Option ℚ
  longitude : Option ℚ
deriving DecidableEq

/-- A `GeoJson` with every field absent (`{}`). -/
def GeoJson.empty : GeoJson := ⟨none, none, none, none, none, none, none, none, none⟩

/-- The location dict built by `fetch_location` on a 200/parseable response
(`src/main.py` lines 107-113). -/
structure GeoLocation where
  city : String
  state : String
  country : String
  latitude : Option ℚ
  longitude : Option ℚ
deriving DecidableEq

/-- Lines 107-113 of `src/main.py`: field extraction with Python `or`
fallbacks and `[:2]` country truncation. -/
def geoFromJson (data : GeoJson) : GeoLocation :=
  { city := pyStrChoice data.city data.cityName "Desconhecida"
    state := (pyOrS data.region (some "")).getD ""
    country := (pyStrChoice data.countryCode data.country_code "BR").take 2
    latitude := pyOrQ data.lat data.latitude
    longitude := pyOrQ data.lon data.longitude }

/-- Observable behaviour of one geolocation backend for one call:
`exn` models a raised request exception (timeout, connection failure);
`resp status body` models an HTTP response, with `body = none` when the
body is not parseable JSON (`r.json()` raises). -/
inductive GeoResponse where
  | exn : GeoResponse
  | resp (status : ℕ) (body : Option GeoJson) : GeoResponse
deriving DecidableEq

/-- A backend outcome the loop skips: an exception, a non-200 status, or a
200 status whose body fails to parse. -/
def GeoResponse.fails (r : GeoResponse) : Bool :=
  match r with
  | .exn => true
  | .resp status body => status ≠ 200 || body.isNone

/-- `WeatherService.fetch_location` (lines 95-115), over the list of backend
responses in chain order (the source chain queries three fixed URLs):
skip on exception, on `status_code != 200`, and on a JSON parse error;
return the extracted dict on the first parseable 200 response; `None`
when the chain is exhausted. -/
def fetch_location : List GeoResponse → Option GeoLocation
  | [] => none
  | GeoResponse.exn :: rest => fetch_location rest
  | GeoResponse.resp status body :: rest =>
    if status ≠ 200 then fetch_location rest
    else
      match body with
      | none => fetch_location rest
      | some data => some (geoFromJson data)

/-! ## Open-Meteo weather fetch (`fetch_weather_openmeteo`, lines 117-137) -/

/-- The `daily` object of an Open-Meteo response; each array the code touches
is optional (`daily.get(...)` / bracket access that may raise `KeyError`). -/
structure DailyData where
  temperature_2m_max : Option (List ℚ)
  temperature_2m_min : Option (List ℚ)
  weathercode : Option (List ℕ)
deriving DecidableEq

/-- A `DailyData` with every field absent (`{}`), the `data.get("daily",{})`
default. -/
def DailyData.empty : DailyData := ⟨none, none, none⟩

/-- The `current_weather` object of an Open-Meteo response. -/
structure CurrentWeather where
  temperature : Option ℚ
  weathercode : Option ℕ
deriving DecidableEq

/-- A parsed Open-Meteo JSON document (both top-level objects optional). -/
structure OpenMeteoJson where
  daily : Option DailyData
  current_weather : Option CurrentWeather
deriving DecidableEq

/-- One entry of the forecast list built on lines 126-130. -/
structure ForecastDay where
  max : ℤ
  min : ℤ
  desc : String
deriving DecidableEq

/-- The dict returned by `fetch_weather_openmeteo` on success
(lines 132-134). -/
structure WeatherData where
  currentTemp : ℤ
  currentDesc : String
  forecast : List ForecastDay
deriving DecidableEq

/-- The forecast-list comprehension body for index `i` (lines 126-130):
bracket access into the three daily arrays (a missing key or index raises,
modelled by `none`), unit conversion, and code-to-text lookup with
`"desconhecido"` default. -/
def forecastEntry (daily : DailyData) (unit : String) (i : ℕ) : Option ForecastDay := do
  let tmax ← daily.temperature_2m_max
  let mx ← pyIndex tmax i
  let tmin ← daily.temperature_2m_min
  let mn ← pyIndex tmin i
  let wcs ← daily.weathercode
  let wc ← pyIndex wcs i
  pure
    { max := convert_temperature mx unit
      min := convert_temperature mn unit
      desc := (OPEN_METEO_WEATHER_CODES wc).getD "desconhecido" }

/-- `WeatherService.fetch_weather_openmeteo` (lines 117-137), over the parsed
response (`none` models a request or JSON failure; any exception inside the
`try` block yields `None`, i.e. `none`).  The comprehension runs over
`range(min(2, len(daily.get("temperature_2m_max", []))))`. -/
def fetch_weather_openmeteo (response : Option OpenMeteoJson) (unit : String) :
    Option WeatherData :=
  match response with
  | none => none
  | some data =>
    let daily := data.daily.getD DailyData.empty
    let n := min 2 (daily.temperature_2m_max.getD []).length
    match (List.range n).mapM (forecastEntry daily unit) with
    | none => none
    | some forecast =>
      let current := data.current_weather.getD ⟨none, none⟩
      some
        { currentTemp := convert_temperature (current.temperature.getD 0) unit
          currentDesc :=
            (OPEN_METEO_WEATHER_CODES (current.weathercode.getD 0)).getD "desconhecido"
          forecast := forecast }

/-! ## Provider dispatch (`UWeather.get_weather_data`, lines 155-160) -/

/-- The preference values `get_weather_data` reads. -/
structure Prefs where
  provider : Option String
  api_key : Option String
deriving DecidableEq

/-- What `get_weather_data` returns: the `{"error": ...}` dict, or whatever
`fetch_weather_openmeteo` produced (possibly `None`). -/
inductive WeatherAnswer where
  | errorDict (msg : String) : WeatherAnswer
  | fetched (w : Option WeatherData) : WeatherAnswer
deriving DecidableEq

/-- `UWeather.get_weather_data` (lines 155-160).  `openMeteoResponse` is the
response `fetch_weather_openmeteo` would observe if called.  The second
component counts provider HTTP requests issued during the call:
`fetch_weather_openmeteo` performs exactly one `session.get` (line 120),
the credential-missing early return performs none. -/
def get_weather_data (prefs : Prefs) (openMeteoResponse : Option OpenMeteoJson)
    (unit : String) : WeatherAnswer × ℕ :=
  let provider := strLower (pyStrOr prefs.provider "open-meteo")
  if provider = "openweather" && !(pyTruthyStr prefs.api_key) then
    (WeatherAnswer.errorDict "API Key ausente", 0)
  else
    (WeatherAnswer.fetched (fetch_weather_openmeteo openMeteoResponse unit), 1)

/-! ## Cache (`on_event` lines 222-230 and 276-279; `on_preferences_changed`
lines 162-169) -/

/-- One cache entry: the stored payload and `"ts"`, its store time. -/
structure CacheEntry (α : Type) where
  payload : α
  ts : ℚ

/-- The in-memory cache dict, keyed by string. -/
def Cache (α : Type) : Type := String → Option (CacheEntry α)

/-- The empty cache (`{}`). -/
def Cache.empty {α : Type} : Cache α := fun _ => none

/-- Dict assignment `cache[key] = {..., "ts": time.time()}` (lines 185, 206,
277-278). -/
def cacheSet {α : Type} (c : Cache α) (k : String) (v : α) (now : ℚ) : Cache α :=
  fun q => if q = k then some ⟨v, now⟩ else c q

/-- The read-time hit test of `on_event` line 225:
`key in extension.cache and time.time() - extension.cache[key]["ts"] < CACHE_TTL`.
A stored entry is a hit exactly when `now - ts < CACHE_TTL`; nothing is
evicted by a read. -/
def cacheGet {α : Type} (c : Cache α) (k : String) (now : ℚ) : Option α :=
  match c k with
  | some e => if now - e.ts < CACHE_TTL then some e.payload else none
  | none => none

/-- The preference keys whose change clears the cache
(`src/main.py` line 166). -/
def relevantPrefKeys : List String :=
  ["provider", "api_key", "location_mode", "static_location", "unit"]

/-- `UWeather.on_preferences_changed` (lines 162-169), restricted to its
effect on the cache: `self.cache = {}` when the changed key is relevant. -/
def on_preferences_changed {α : Type} (key : String) (cache : Cache α) : Cache α :=
  if key ∈ relevantPrefKeys then Cache.empty else cache

/-! ## Cache keys (`on_event` lines 222-224 and 276-279) -/

/-- The key shape shared by both lookups:
`f"{identifier}_{provider}_{unit}"` with `identifier = mode` on line 224 and
`identifier = geo['city'].lower()` on line 278. -/
def cacheKey (identifier provider unit : String) : String :=
  identifier ++ "_" ++ provider ++ "_" ++ unit

/-- The empty-query key of `on_event` line 224, `f"{mode}_{provider}_{unit}"`,
after the line 216-218 normalisations.  The system language (read by
`get_system_language` and available per request) is accepted as an argument
to state claims about it; as on line 224, it does not occur in the key. -/
def requestKeyNoQuery (mode provider unit language : String) : String :=
  cacheKey mode provider unit

/-- The typed-lookup key of `on_event` line 278,
`f"{geo['city'].lower()}_{provider}_{unit}"`: the identifier is the
lowercased resolved city name.  As on line 278, the language argument does
not occur in the key. -/
def requestKeyTyped (cityName provider unit language : String) : String :=
  cacheKey (strLower cityName) provider unit

/-! ## Renderer (`WeatherListener.render`, lines 295-321) -/

/-- A produced result item: `result` models `ExtensionResultItem`
(name, description, open-url action), `small` models
`ExtensionSmallResultItem` (name, open-url action). -/
inductive RenderItem where
  | result (name description url : String) : RenderItem
  | small (name url : String) : RenderItem
deriving DecidableEq

/-- Decimal rendering of the optional coordinate interpolated into the
weather.com URL (line 299); `None` prints as Python would. -/
def optCoordStr (q : Option ℚ) : String :=
  match q with
  | some v => toString v
  | none => "None"

/-- The URL built on line 299. -/
def weatherUrl (lang : String) (geo : GeoLocation) : String :=
  "https://weather.com/" ++ lang ++ "/weather/today/l/" ++ optCoordStr geo.latitude
    ++ "," ++ optCoordStr geo.longitude

/-- Line 303: `loc_text`, with the state included only when truthy. -/
def locText (geo : GeoLocation) : String :=
  if geo.state ≠ "" then
    geo.city ++ ", " ++ geo.state ++ " " ++ country_flag geo.country
  else
    geo.city ++ " " ++ country_flag geo.country

/-- Lines 306-307: the `complete`-mode description.  The forecast line reads
`f[0]` only under the `if f` truthiness guard; the indexing itself is the
fallible `pyIndex`. -/
def descTextComplete (f : List ForecastDay) : Option String :=
  if f.isEmpty then some "Clique para detalhes"
  else
    (pyIndex f 0).map fun d =>
      "Amanhã: " ++ toString d.min ++ "º/" ++ toString d.max ++ "º"

/-- `WeatherListener.render` (lines 295-321), producing the single item the
returned `RenderResultListAction` wraps.  `none` models an uncaught
exception inside `render` (none is ever reached, as proved below). -/
def render (geo : GeoLocation) (weather : WeatherData) (lang interface_mode : String) :
    Option RenderItem :=
  let url := weatherUrl lang geo
  let temp := weather.currentTemp
  let desc := weather.currentDesc
  let lt := locText geo
  if interface_mode = "complete" then
    (descTextComplete weather.forecast).map fun d =>
      RenderItem.result (lt ++ " — " ++ toString temp ++ "º, " ++ desc) d url
  else if interface_mode = "essential" then
    some (RenderItem.result (toString temp ++ "º, " ++ desc) lt url)
  else
    some (RenderItem.small (toString temp ++ "º – " ++ lt) url)

/-- The result-list `render` hands to `RenderResultListAction([item])`:
always exactly one item. -/
def renderAction (geo : GeoLocation) (weather : WeatherData)
    (lang interface_mode : String) : Option (List RenderItem) :=
  (render geo weather lang interface_mode).map fun i => [i]

/-! ## Spec-side definitions (for refinement comparison only) -/

/-- The recognised interface modes named by the spec (§4.5 closed set). -/
def specRecognisedModes : List String :=
  ["ultra", "minimal", "essential", "compact", "complete"]

/-- Spec-side forecast semantics, from the spec's words (§3 data model and
§4.2): index 0 of the emitted forecast is the next day, the today bucket —
the first entry of the provider's chronological daily sequence — is always
excluded, only days strictly after today are emitted, and at most 3 entries
appear.  Compared against `fetch_weather_openmeteo` below. -/
def specForecastOutput (dailyEntries : List ForecastDay) : List ForecastDay :=
  (dailyEntries.drop 1).take 3

/-- The forecast entries the code's daily arrays denote, bucket by bucket, in
upstream chronological order (first bucket = earliest day), used to compare
code output with `specForecastOutput`. -/
def dailyBuckets (daily : DailyData) (unit : String) : List ForecastDay :=
  match daily.temperature_2m_max, daily.temperature_2m_min, daily.weathercode with
  | some mxs, some mns, some wcs =>
    (List.range (min mxs.length (min mns.length wcs.length))).filterMap
      (forecastEntry daily unit)
  | _, _, _ => []

/-! ## Concrete sample data used by counterexamples and witnesses -/

/-- A well-formed geolocation backend body for Paris (coordinates rounded to
integers; only exactness of the embedding matters, not the values). -/
def parisGeoJson : GeoJson :=
  { city := some "Paris", cityName := none, region := some "Ile-de-France",
    countryCode := some "FR", country_code := none,
    lat := some 48, latitude := none, lon := some 2, longitude := none }

/-- The location `fetch_location` extracts from `parisGeoJson`. -/
def demoGeoLoc : GeoLocation := geoFromJson parisGeoJson

/-- A three-day `daily` object: bucket 0 is the earliest (today's) bucket. -/
def demoDaily : DailyData := ⟨some [10, 20, 30], some [1, 2, 3], some [0, 1, 2]⟩

/-- An Open-Meteo document wrapping `demoDaily` with a current reading. -/
def demoOpenMeteo : OpenMeteoJson := ⟨some demoDaily, some ⟨some 5, some 0⟩⟩

/-- The value `fetch_weather_openmeteo` computes from `demoOpenMeteo` in
metric units. -/
def demoWeather : WeatherData :=
  { currentTemp := 5, currentDesc := "céu limpo",
    forecast := [⟨10, 1, "céu limpo"⟩, ⟨20, 2, "parcialmente nublado"⟩] }

/-- A result whose forecast sequence is empty. -/
def noForecastWeather : WeatherData :=
  { currentTemp := 5, currentDesc := "céu limpo", forecast := [] }

end Uweather

/-! # Theorems -/

namespace Uweather

/-- Strings with equal underlying character lists are equal. -/
theorem string_data_injective {a b : String} (h : a.data = b.data) : a = b := by
  cases a
  cases b
  cases h
  rfl

/-- Appending concatenates the underlying character lists. -/
theorem string_append_data (a b : String) : (a ++ b).data = a.data ++ b.data := by
  cases a
  cases b
  rfl

/-- Successful `mapM` over `Option` maps each position pointwise. -/
theorem mapM_option_spec {α β : Type} (f : β → Option α) :
    ∀ (xs : List β) (l : List α), xs.mapM f = some l →
      l.length = xs.length ∧ ∀ i : ℕ, l.get? i = (xs.get? i).bind f := by
  intro xs
  induction xs with
  | nil =>
    intro l h
    rw [List.mapM_nil] at h
    cases h
    constructor
    · rfl
    · intro i
      cases i <;> rfl
  | cons x xs ih =>
    intro l h
    rw [List.mapM_cons] at h
    cases hx : f x with
    | none => rw [hx] at h; cases h
    | some b =>
      rw [hx] at h
      cases hxs : xs.mapM f with
      | none => rw [hxs] at h; cases h
      | some bs =>
        rw [hxs] at h
        cases h
        obtain ⟨hlen, hget⟩ := ih bs hxs
        constructor
        · simpa using hlen
        · intro i
          cases i with
          | zero => simp [hx]
          | succ j => simpa using hget j

/-- C1: a `get(k)` performed at the store time of `set(k, v)` returns `v`;
once `now - storedAt` reaches the 600-second `CACHE_TTL` the read is a miss
(the check happens at read time); the stale entry is not evicted — it stays
physically stored and is overwritten by the next successful `set`. -/
theorem C1_cache_ttl {α : Type} (c : Cache α) (k : String) (v : α) (t now : ℚ) :
    cacheGet (cacheSet c k v t) k t = some v
    ∧ (CACHE_TTL ≤ now - t → cacheGet (cacheSet c k v t) k now = none)
    ∧ cacheSet c k v t k = some ⟨v, t⟩
    ∧ (∀ (v' : α) (t' : ℚ), cacheSet (cacheSet c k v t) k v' t' k = some ⟨v', t'⟩) := by
  refine ⟨?_, ?_, ?_, ?_⟩
  · norm_num [cacheGet, cacheSet, CACHE_TTL]
  · intro h
    have hlt : ¬(now - t < CACHE_TTL) := not_lt.mpr h
    simp [cacheGet, cacheSet, hlt]
  · simp [cacheSet]
  · intro v' t'
    simp [cacheSet]

/-- C1 witness: on a fresh cache, storing payload 7 under a concrete key at
time 0 makes an immediate read return 7 and a read at elapsed time 600 a
miss. -/
theorem C1_cache_ttl_witness :
    cacheGet (cacheSet (Cache.empty (α := ℕ)) "auto_open-meteo_c" 7 0) "auto_open-meteo_c" 0
        = some 7
    ∧ cacheGet (cacheSet (Cache.empty (α := ℕ)) "auto_open-meteo_c" 7 0) "auto_open-meteo_c" 600
        = none :=
  ⟨(C1_cache_ttl Cache.empty "auto_open-meteo_c" 7 0 600).1,
   (C1_cache_ttl Cache.empty "auto_open-meteo_c" 7 0 600).2.1 (by norm_num [CACHE_TTL])⟩

/-- C2 counterexample: a 200 response with parseable JSON whose required
coordinate fields are all missing does not advance resolution to the next
backend — `fetch_location` returns the field-defaulted location (with
`latitude = none`) instead of the next backend's good answer. -/
theorem C2_missing_fields_counterexample :
    fetch_location
        [GeoResponse.resp 200 (some GeoJson.empty), GeoResponse.resp 200 (some parisGeoJson)]
      ≠ fetch_location [GeoResponse.resp 200 (some parisGeoJson)]
    ∧ fetch_location
        [GeoResponse.resp 200 (some GeoJson.empty), GeoResponse.resp 200 (some parisGeoJson)]
      = some (geoFromJson GeoJson.empty)
    ∧ (geoFromJson GeoJson.empty).latitude = none := by
  refine ⟨by decide, by decide, by decide⟩

/-- C2 amended: a backend failure in the sense the loop recovers from — a
raised request exception (timeout), a non-200 status, or a malformed body —
is not propagated and resolution advances to the next backend; resolution
returns the unresolvable outcome (`none`) exactly when every backend in the
chain fails; but a 200 response with a parseable body is returned
immediately even when its required fields are missing. -/
theorem C2_backend_chain :
    (∀ (r : GeoResponse) (rest : List GeoResponse), r.fails = true →
        fetch_location (r :: rest) = fetch_location rest)
    ∧ (∀ rs : List GeoResponse, (∀ r ∈ rs, r.fails = true) → fetch_location rs = none)
    ∧ (∀ (j : GeoJson) (rest : List GeoResponse),
        fetch_location (GeoResponse.resp 200 (some j) :: rest) = some (geoFromJson j)) := by
  have skip : ∀ (r : GeoResponse) (rest : List GeoResponse), r.fails = true →
      fetch_location (r :: rest) = fetch_location rest := by
    intro r rest hr
    cases r with
    | exn => rfl
    | resp status body =>
      by_cases hs : status = 200
      · subst hs
        simp only [GeoResponse.fails, Bool.or_eq_true, decide_eq_true_eq, ne_eq,
          not_true_eq_false, false_or, Option.isNone_iff_eq_none] at hr
        subst hr
        simp [fetch_location]
      · simp [fetch_location, hs]
  refine ⟨skip, ?_, ?_⟩
  · intro rs h
    induction rs with
    | nil => rfl
    | cons r rest ih =>
      rw [skip r rest (h r (by simp))]
      exact ih fun x hx => h x (by simp [hx])
  · intro j rest
    simp [fetch_location]

/-- C2 witness: a chain whose three backends time out, answer 404, and answer
200 with a malformed body resolves to the unresolvable outcome. -/
theorem C2_backend_chain_witness :
    fetch_location
      [GeoResponse.exn, GeoResponse.resp 404 (some GeoJson.empty), GeoResponse.resp 200 none]
      = none :=
  C2_backend_chain.2.1 _ (by decide)

/-- C3 counterexample: on a three-bucket daily array whose first bucket is the
today bucket, the emitted forecast is NOT the today-excluded sequence the
claim describes — the today bucket itself appears at index 0. -/
theorem C3_today_bucket_counterexample :
    fetch_weather_openmeteo (some demoOpenMeteo) "c" = some demoWeather
    ∧ demoWeather.forecast ≠ specForecastOutput (dailyBuckets demoDaily "c") := by
  refine ⟨by decide, by decide⟩

/-- C3 amended: every forecast returned by `fetch_weather_openmeteo` is a
chronological sequence of at most 2 (not 3) entries taken from the start of
the provider's daily array without any exclusion: entry `i` of the output is
bucket `i` of the upstream array, so when the upstream array begins with the
today bucket, index 0 of the output is today, not the next day. -/
theorem C3_forecast_front_buckets (data : OpenMeteoJson) (unit : String) (w : WeatherData)
    (h : fetch_weather_openmeteo (some data) unit = some w) :
    w.forecast.length ≤ 2
    ∧ ∀ i : ℕ, i < w.forecast.length →
        w.forecast.get? i = forecastEntry (data.daily.getD DailyData.empty) unit i := by
  simp only [fetch_weather_openmeteo] at h
  cases hm : (List.range (min 2
      (((data.daily.getD DailyData.empty).temperature_2m_max.getD []).length))).mapM
      (forecastEntry (data.daily.getD DailyData.empty) unit) with
  | none => rw [hm] at h; cases h
  | some forecast =>
    rw [hm] at h
    cases h
    obtain ⟨hlen, hget⟩ := mapM_option_spec _ _ _ hm
    rw [List.length_range] at hlen
    constructor
    · simp only [hlen]
      exact min_le_left _ _
    · intro i hi
      simp only at hi
      rw [hlen] at hi
      rw [hget i, List.get?_range hi]
      rfl

/-- C3 witness: on the sample document the forecast has two entries and its
index-0 entry is upstream bucket 0 (the today bucket). -/
theorem C3_forecast_front_buckets_witness :
    demoWeather.forecast.length ≤ 2
    ∧ demoWeather.forecast.get? 0
        = forecastEntry (demoOpenMeteo.daily.getD DailyData.empty) "c" 0 :=
  ⟨(C3_forecast_front_buckets demoOpenMeteo "c" demoWeather (by decide)).1,
   (C3_forecast_front_buckets demoOpenMeteo "c" demoWeather (by decide)).2 0 (by decide)⟩

/-- C4: Celsius-to-Fahrenheit conversion for display computes
`t * 9/5 + 32` truncated, not rounded, to an integer: 0 °C gives 32 °F,
100 °C gives 212 °F, 36.9 °C gives 98 °F, and in general (for the
nonnegative readings where truncation is floor) the result is the integer
just below the exact value. -/
theorem C4_fahrenheit_truncation :
    convert_temperature 0 "f" = 32
    ∧ convert_temperature 100 "f" = 212
    ∧ convert_temperature (369 / 10) "f" = 98
    ∧ ∀ t : ℚ, 0 ≤ t →
        ((convert_temperature t "f" : ℚ) ≤ t * 9 / 5 + 32
          ∧ t * 9 / 5 + 32 - 1 < (convert_temperature t "f" : ℚ)) := by
  refine ⟨by norm_num [convert_temperature, pyInt],
    by norm_num [convert_temperature, pyInt],
    by norm_num [convert_temperature, pyInt], ?_⟩
  intro t ht
  have hF : (0 : ℚ) ≤ t * 9 / 5 + 32 := by
    have h9 : (0 : ℚ) ≤ t * 9 / 5 := by positivity
    linarith
  have hconv : convert_temperature t "f" = ⌊t * 9 / 5 + 32⌋ := by
    rw [convert_temperature, if_pos rfl, pyInt, if_neg (not_lt.mpr hF)]
  rw [hconv]
  refine ⟨Int.floor_le _, ?_⟩
  have := Int.sub_one_lt_floor (t * 9 / 5 + 32)
  linarith

/-- C4 witness: the truncation bound and the exact value at 36.9 °C. -/
theorem C4_fahrenheit_truncation_witness :
    convert_temperature (369 / 10) "f" = 98
    ∧ (convert_temperature (369 / 10) "f" : ℚ) ≤ 369 / 10 * 9 / 5 + 32 :=
  ⟨C4_fahrenheit_truncation.2.2.1,
   (C4_fahrenheit_truncation.2.2.2 (369 / 10) (by norm_num)).1⟩

/-- C5: when the configured provider normalises to `openweather` and no API
key is configured (absent or empty, i.e. falsy), `get_weather_data` returns
the typed credential-missing error value — it is a returned value, not a
raised error — and performs no provider request at all. -/
theorem C5_credential_missing (prefs : Prefs) (resp : Option OpenMeteoJson) (unit : String)
    (hprov : strLower (pyStrOr prefs.provider "open-meteo") = "openweather")
    (hkey : pyTruthyStr prefs.api_key = false) :
    get_weather_data prefs resp unit = (WeatherAnswer.errorDict "API Key ausente", 0) := by
  simp [get_weather_data, hprov, hkey]

/-- C5 witness: provider `OpenWeather` with no key configured yields the
error dict and zero provider requests. -/
theorem C5_credential_missing_witness :
    get_weather_data ⟨some "OpenWeather", none⟩ none "c"
      = (WeatherAnswer.errorDict "API Key ausente", 0) :=
  C5_credential_missing ⟨some "OpenWeather", none⟩ none "c" (by decide) rfl

/-- C6: changing any preference among provider, api_key, location_mode,
static_location and unit empties the whole cache: afterwards every lookup of
every key finds nothing stored. -/
theorem C6_invalidate_all {α : Type} (key : String) (cache : Cache α) (k : String)
    (h : key ∈ relevantPrefKeys) : on_preferences_changed key cache k = none := by
  unfold on_preferences_changed
  rw [if_pos h]
  rfl

/-- C6 witness: after a unit change, the previously stored entry is gone. -/
theorem C6_invalidate_all_witness :
    on_preferences_changed "unit"
        (cacheSet (Cache.empty (α := ℕ)) "auto_open-meteo_c" 7 0) "auto_open-meteo_c"
      = none :=
  C6_invalidate_all "unit" _ _ (by decide)

/-- C7 counterexample: `turbo` is not a recognised interface mode, yet
`render` does not fall back to the `complete` output for it — the two
renderings differ on a concrete result. -/
theorem C7_fallback_counterexample :
    "turbo" ∉ specRecognisedModes
    ∧ render demoGeoLoc demoWeather "en-US" "turbo"
        ≠ render demoGeoLoc demoWeather "en-US" "complete" := by
  refine ⟨by decide, by decide⟩

/-- C7 amended: every interface-mode string other than `complete` and
`essential` — including every unrecognised mode — falls back to the small
single-line layout (the shared `else` branch), not to the `complete` layout,
and the rendered action still carries exactly one item, never empty
output. -/
theorem C7_unrecognised_mode_fallback (geo : GeoLocation) (w : WeatherData)
    (lang mode : String) (h1 : mode ≠ "complete") (h2 : mode ≠ "essential") :
    render geo w lang mode
      = some (RenderItem.small (toString w.currentTemp ++ "º – " ++ locText geo)
          (weatherUrl lang geo))
    ∧ renderAction geo w lang mode
      = some [RenderItem.small (toString w.currentTemp ++ "º – " ++ locText geo)
          (weatherUrl lang geo)] := by
  constructor
  · simp [render, h1, h2]
  · simp [renderAction, render, h1, h2]

/-- C7 witness: the fallback output for the unrecognised mode `turbo` on the
sample result. -/
theorem C7_unrecognised_mode_fallback_witness :
    render demoGeoLoc demoWeather "en-US" "turbo"
      = some (RenderItem.small (toString demoWeather.currentTemp ++ "º – " ++ locText demoGeoLoc)
          (weatherUrl "en-US" demoGeoLoc)) :=
  (C7_unrecognised_mode_fallback demoGeoLoc demoWeather "en-US" "turbo"
    (by decide) (by decide)).1

/-- C8: `render` is total — it produces an item for every result, every
language and every mode, so no forecast length 0-3 (or any other) makes it
fail — and on an empty forecast sequence the `complete` layout omits the
forecast line, showing the click-for-details placeholder instead. -/
theorem C8_short_forecast_safe :
    (∀ (geo : GeoLocation) (w : WeatherData) (lang mode : String),
        (render geo w lang mode).isSome = true)
    ∧ (∀ (geo : GeoLocation) (w : WeatherData) (lang : String), w.forecast = [] →
        render geo w lang "complete"
          = some (RenderItem.result
              (locText geo ++ " — " ++ toString w.currentTemp ++ "º, " ++ w.currentDesc)
              "Clique para detalhes" (weatherUrl lang geo))) := by
  constructor
  · intro geo w lang mode
    by_cases h1 : mode = "complete"
    · rcases hf : w.forecast with _ | ⟨d, ds⟩ <;>
        simp [render, h1, descTextComplete, pyIndex, hf]
    · by_cases h2 : mode = "essential" <;> simp [render, h1, h2]
  · intro geo w lang h
    simp [render, descTextComplete, h]

/-- C8 witness: rendering a result with an empty forecast in `complete` mode
yields the placeholder description instead of an error. -/
theorem C8_short_forecast_safe_witness :
    render demoGeoLoc noForecastWeather "en-US" "complete"
      = some (RenderItem.result
          (locText demoGeoLoc ++ " — " ++ toString noForecastWeather.currentTemp ++ "º, "
            ++ noForecastWeather.currentDesc)
          "Clique para detalhes" (weatherUrl "en-US" demoGeoLoc)) :=
  C8_short_forecast_safe.2 demoGeoLoc noForecastWeather "en-US" rfl

/-- C9 counterexample: two requests that differ only in the language
component use the SAME cache key, both for empty-query lookups and for typed
lookups — the language is not part of the key. -/
theorem C9_language_counterexample :
    "en-US" ≠ "pt-BR"
    ∧ requestKeyNoQuery "auto" "open-meteo" "c" "en-US"
        = requestKeyNoQuery "auto" "open-meteo" "c" "pt-BR"
    ∧ requestKeyTyped "Paris" "open-meteo" "c" "en-US"
        = requestKeyTyped "Paris" "open-meteo" "c" "pt-BR" := by
  refine ⟨by decide, rfl, rfl⟩

/-- C9 amended: every cache key is composed of exactly an identifier (the
location-mode string for empty-query lookups, the lowercased resolved city
name for typed lookups), the provider and the unit, joined as
`identifier_provider_unit`; two keys that differ in exactly one of these
three components are distinct, while the language never influences the
key. -/
theorem C9_key_composition :
    (∀ id p u u' : String, u ≠ u' → cacheKey id p u ≠ cacheKey id p u')
    ∧ (∀ id p p' u : String, p ≠ p' → cacheKey id p u ≠ cacheKey id p' u)
    ∧ (∀ id id' p u : String, id ≠ id' → cacheKey id p u ≠ cacheKey id' p u)
    ∧ (∀ m p u l l' : String, requestKeyNoQuery m p u l = requestKeyNoQuery m p u l')
    ∧ (∀ c p u l l' : String, requestKeyTyped c p u l = requestKeyTyped c p u l') := by
  have data_eq : ∀ a b c : String,
      (cacheKey a b c).data = a.data ++ ("_".data ++ (b.data ++ ("_".data ++ c.data))) := by
    intro a b c
    simp [cacheKey, string_append_data, List.append_assoc]
  refine ⟨?_, ?_, ?_, fun _ _ _ _ _ => rfl, fun _ _ _ _ _ => rfl⟩
  · intro id p u u' hu heq
    apply hu
    have hd := congrArg String.data heq
    rw [data_eq, data_eq] at hd
    exact string_data_injective
      (List.append_cancel_left (List.append_cancel_left (List.append_cancel_left
        (List.append_cancel_left hd))))
  · intro id p p' u hp heq
    apply hp
    have hd := congrArg String.data heq
    rw [data_eq, data_eq] at hd
    exact string_data_injective
      (List.append_cancel_right (List.append_cancel_left (List.append_cancel_left hd)))
  · intro id id' p u hid heq
    apply hid
    have hd := congrArg String.data heq
    rw [data_eq, data_eq] at hd
    exact string_data_injective (List.append_cancel_right hd)

/-- C9 witness: concrete distinct-unit keys are distinct, and concrete
language variation leaves the key unchanged. -/
theorem C9_key_composition_witness :
    cacheKey "auto" "open-meteo" "c" ≠ cacheKey "auto" "open-meteo" "f"
    ∧ requestKeyTyped "Lisboa" "open-meteo" "c" "en-US"
        = requestKeyTyped "Lisboa" "open-meteo" "c" "fr-FR" :=
  ⟨C9_key_composition.1 "auto" "open-meteo" "c" "f" (by decide),
   C9_key_composition.2.2.2.2 "Lisboa" "open-meteo" "c" "en-US" "fr-FR"⟩

/-- C10: whenever the credential check passes (the normalised provider is
not `openweather`, or an API key is configured), `get_weather_data` issues
exactly one provider request, to Open-Meteo, and returns its result —
the configured provider never changes which source supplies the data. -/
theorem C10_provider_ignored (prefs : Prefs) (resp : Option OpenMeteoJson) (unit : String)
    (h : strLower (pyStrOr prefs.provider "open-meteo") ≠ "openweather"
      ∨ pyTruthyStr prefs.api_key = true) :
    get_weather_data prefs resp unit
      = (WeatherAnswer.fetched (fetch_weather_openmeteo resp unit), 1) := by
  rcases h with h | h <;> simp [get_weather_data, h]

/-- C10 witness: even with provider `openweather` configured (and a key
present), the data comes from the Open-Meteo fetch. -/
theorem C10_provider_ignored_witness :
    get_weather_data ⟨some "openweather", some "secret-key"⟩ (some demoOpenMeteo) "c"
      = (WeatherAnswer.fetched (fetch_weather_openmeteo (some demoOpenMeteo) "c"), 1) :=
  C10_provider_ignored ⟨some "openweather", some "secret-key"⟩ (some demoOpenMeteo) "c"
    (Or.inr (by decide))

end Uweather
